import Mathlib

/-!
# MovieNight: the lifecycle coordinator of `main.go`

A shallow embedding of `main.go`: the start-up sequence (`setupSettings`, `main`), the
three goroutines `main` launches (termination-signal handler, chat/HTTP server, RTMP server)
and the route table installed on the HTTP server.

Every goroutine is embedded as the list of observable events it performs, in program order,
together with the way it stops.  Calls into code that lives outside `main.go` (settings
persistence, logging, the chat room, `net/http`, `os/signal`, the RTMP library) are events;
the values such calls return are fields of the environment `Env`, so every theorem
quantifies over all of their possible results.
-/

namespace MovieNight

/-! ## Values of the Go runtime and libraries that `main.go` manipulates -/

/-- A non-nil Go `error` value.  `ErrServerClosed` is the sentinel `http.ErrServerClosed`;
comparison with `!=` is identity of the value, so every other error is `other`. -/
inductive GoError where
  | ErrServerClosed
  | other (msg : String)
deriving DecidableEq, Repr

/-- The method `err.Error()`. -/
def GoError.Error : GoError → String
  | .ErrServerClosed => "http: Server closed"
  | .other msg => msg

/-- The call `fmt.Errorf(format, err)` for a format `prefix ++ "%s"`. -/
def fmtErrorf (pre : String) (err : GoError) : GoError :=
  .other (pre ++ err.Error)

/-- Operating-system signals (`os.Signal` values). -/
inductive Signal where
  | SIGHUP
  | SIGINT
  | SIGQUIT
  | SIGKILL
  | SIGTERM
deriving DecidableEq, Repr

/-- The constant `os.Interrupt`, which the Go standard library defines as `syscall.SIGINT`. -/
def osInterrupt : Signal := .SIGINT

/-- What `signal.Notify(ch, sigs...)` relays to `ch`: the listed signals, or every signal
when none is listed. -/
def notifyRelays (sigs : List Signal) (s : Signal) : Bool :=
  sigs.isEmpty || sigs.contains s

/-- The part of a `context.Context` that bounds a wait: its deadline, if it has one, and
whether it can be cancelled at all. -/
structure Context where
  deadline : Option Nat
  cancellable : Bool
deriving DecidableEq, Repr

/-- The value `context.Background()`: never cancelled, no deadline. -/
def contextBackground : Context :=
  { deadline := none, cancellable := false }

/-- The constant `time.Second`, in nanoseconds. -/
def timeSecond : Nat := 1000000000

/-- The handler functions named in the route table (defined in other files). -/
inductive HandlerFunc where
  | wsHandler
  | wsStaticFiles
  | wsImages
  | wsWasmFile
  | wsEmotes
  | handleIndexTemplate
  | handleHelpTemplate
  | handleDefault
deriving DecidableEq, Repr

/-- The RTMP callbacks (defined in other files). -/
inductive RtmpCallback where
  | handlePlay
  | handlePublish
deriving DecidableEq, Repr

/-- Calls a closure of `main.go` makes into the chat room. -/
inductive Call where
  | chatShutdown
deriving DecidableEq, Repr

/-- The body of a closure registered with `RegisterOnShutdown`: the calls it makes, in order. -/
abbrev Hook := List Call

/-- One entry of a `http.ServeMux`. -/
structure MuxEntry where
  pattern : String
  h : HandlerFunc
deriving DecidableEq, Repr

/-- A `http.ServeMux`: its entries in registration order. -/
abbrev ServeMux := List MuxEntry

/-- The fields of `http.Server` that `main.go` sets, plus the registered shutdown hooks. -/
structure HttpServer where
  Addr : String
  ReadTimeout : Nat
  WriteTimeout : Nat
  MaxHeaderBytes : Nat
  onShutdown : List Hook
  Handler : Option ServeMux
deriving DecidableEq, Repr

/-- The method `srv.RegisterOnShutdown(f)`: appends `f` to the hooks of the server. -/
def HttpServer.RegisterOnShutdown (srv : HttpServer) (f : Hook) : HttpServer :=
  { srv with onShutdown := srv.onShutdown ++ [f] }

/-- The fields of `rtmp.Server` that `main.go` sets. -/
structure RtmpServer where
  HandlePlay : RtmpCallback
  HandlePublish : RtmpCallback
deriving DecidableEq, Repr

/-- The fields of the global `settings` value that `main.go` reads.  The type is declared in
another file; only these fields are used here. -/
structure Settings where
  StreamKey : String
  ListenAddress : String
  AdminPassword : String
  StreamStats : Bool
deriving DecidableEq, Repr

/-- The goroutines launched by `main`. -/
inductive Goroutine where
  | signalHandler
  | chatHttp
  | rtmp
deriving DecidableEq, Repr

/-- Observable events, one per statement of `main.go` that calls out of the file or
synchronises with another goroutine. -/
inductive Event where
  | flagParse
  | formatRegisterAll
  | loadSettings (file : String)
  | setupLogging
  | save
  | printf (s : String)
  | osExit (code : Nat)
  | newChatRoom
  | logErrorln (s : String)
  | setTempKey (k : String)
  | getStreamKey
  | logInfoln (args : List String)
  | newRtmpServer (srv : RtmpServer)
  | newHttpServer (addr : String)
  | registerOnShutdown (f : Hook)
  | makeChanExit
  | go (g : Goroutine)
  | recvExit
  | makeChanSignal
  | signalNotify (sigs : List Signal)
  | recvSignal
  | statsPrint
  | shutdownCall (ctx : Context)
  | hookCall (c : Call)
  | shutdownReturn (err : Option GoError)
  | call (c : Call)
  | logErrorf (s : String)
  | sendExit (v : Bool)
  | newServeMux
  | handleFunc (pattern : String) (h : HandlerFunc)
  | setHandler
  | listenAndServe (g : Goroutine)
  | logDebugln (s : String)
deriving DecidableEq, Repr

/-- Everything outside `main.go` that a run depends on.  `flagL` and `flagK` are the values
passed with `-l` and `-k` (`none` when the flag is absent); the other fields are the results
the external calls return when they are made (`none` is a nil error). -/
structure Env where
  flagL : Option String
  flagK : Option String
  loadSettings : Except GoError Settings
  setupLogging : Option GoError
  save : Option GoError
  newChatRoom : Option GoError
  getStreamKey : Settings → Option String → String

/-- The call `flag.StringVar(&v, name, dflt, usage)` followed by `flag.Parse()`: the
variable holds the value passed on the command line, or the default. -/
def flagStringVar (dflt : String) (passed : Option String) : String :=
  passed.getD dflt

/-! ## `setupSettings` and `main` -/

/-- The function `setupSettings` (lines 24-44): the events it performs and what it returns.
On success the loaded settings (the global `settings`) are returned in place of `nil`. -/
def setupSettings (env : Env) : List Event × Except GoError Settings :=
  match env.loadSettings with
  | .error err =>
    ([.loadSettings "settings.json"], .error (fmtErrorf "Unable to load settings: " err))
  | .ok settings =>
    if settings.StreamKey.length == 0 then
      ([.loadSettings "settings.json"], .error (.other "Missing stream key is settings.json"))
    else
      match env.setupLogging with
      | some err =>
        ([.loadSettings "settings.json", .setupLogging],
          .error (fmtErrorf "Unable to setup logger: " err))
      | none =>
        match env.save with
        | some err =>
          ([.loadSettings "settings.json", .setupLogging, .save],
            .error (fmtErrorf "Unable to save settings: " err))
        | none => ([.loadSettings "settings.json", .setupLogging, .save], .ok settings)

/-- How the main goroutine stops: `os.Exit(code)`, blocked on `<-exit`, or returned from
`main` (process exit status 0). -/
inductive MainStop where
  | osExit (code : Nat)
  | blockedOnExit
  | returned
deriving DecidableEq, Repr

/-- A run of the main goroutine: its events, how it stops, and the values the closures of
the goroutines capture (the local `chatServer`, the local `server` and the global
`settings`), present once they have been constructed. -/
structure MainRun where
  trace : List Event
  stop : MainStop
  chatServer : Option HttpServer
  server : Option RtmpServer
  settings : Option Settings

/-- The function `main` (lines 46-149) up to the point where it blocks on `<-exit`. -/
def main (env : Env) : MainRun :=
  let addr := flagStringVar ":8089" env.flagL
  let sKey := flagStringVar "" env.flagK
  let t0 : List Event := [.flagParse, .formatRegisterAll]
  match setupSettings env with
  | (t1, .error err) =>
    { trace := t0 ++ t1 ++ [.printf ("Error loading settings: " ++ err.Error ++ "\n"), .osExit 1],
      stop := .osExit 1, chatServer := none, server := none, settings := none }
  | (t1, .ok settings) =>
    match env.newChatRoom with
    | some err =>
      { trace := t0 ++ t1 ++ [.newChatRoom, .logErrorln err.Error, .osExit 1],
        stop := .osExit 1, chatServer := none, server := none, settings := some settings }
    | none =>
      let addr := if addr != "" then settings.ListenAddress else addr
      let tKey : List Event := if sKey != "" then [.setTempKey sKey] else []
      let tempKey : Option String := if sKey != "" then some sKey else none
      let server : RtmpServer := { HandlePlay := .handlePlay, HandlePublish := .handlePublish }
      let chatServer : HttpServer :=
        { Addr := addr, ReadTimeout := 10 * timeSecond, WriteTimeout := 10 * timeSecond,
          MaxHeaderBytes := 1 <<< 20, onShutdown := [], Handler := none }
      let chatServer := chatServer.RegisterOnShutdown [.chatShutdown]
      { trace := t0 ++ t1 ++ [.newChatRoom] ++ tKey ++
          [.getStreamKey, .logInfoln ["Stream key: ", env.getStreamKey settings tempKey],
           .logInfoln ["Admin password: ", settings.AdminPassword],
           .logInfoln ["Listen and serve ", addr],
           .newRtmpServer server, .newHttpServer addr, .registerOnShutdown [.chatShutdown],
           .makeChanExit, .go .signalHandler, .go .chatHttp, .go .rtmp, .recvExit],
        stop := .blockedOnExit, chatServer := some chatServer, server := some server,
        settings := some settings }

/-- The receive `<-exit` on line 148, the last statement of `main`: the main goroutine
blocked there returns once a value has been sent on `exit`.  The only send on `exit` in the
program is the signal handler's (line 109), so the resumption is decided by the handler's
events. -/
def MainRun.resume (r : MainRun) (handler : List Event) : MainRun :=
  if r.stop = .blockedOnExit ∧ Event.sendExit true ∈ handler then
    { r with stop := .returned }
  else r

/-! ## The termination-signal handler (lines 95-110) -/

/-- The events of the hooks that `srv.Shutdown` starts: every registered hook is run once,
in registration order. -/
def runHooks : List Hook → List Event
  | [] => []
  | f :: fs => f.map Event.hookCall ++ runHooks fs

/-- The goroutine of lines 95-110 in a run in which a signal is relayed to `ch`.
`settings` is the global read on line 100 and `chatServer` the local variable of `main`
captured by the closure.  `shutdown` is what the call `chatServer.Shutdown` does:
`none` when it never returns, `some r` when it returns `r` (`r = none` being a nil error). -/
def signalHandler (settings : Settings) (chatServer : HttpServer)
    (shutdown : Option (Option GoError)) : List Event :=
  [.makeChanSignal, .signalNotify [osInterrupt], .recvSignal, .logInfoln ["Closing server"]] ++
  (if settings.StreamStats then [.statsPrint] else []) ++
  [.shutdownCall contextBackground] ++ runHooks chatServer.onShutdown ++
  match shutdown with
  | none => []
  | some r =>
    [.shutdownReturn r] ++
    (match r with
     | some err => [.logErrorf ("Error shutting down chat server: " ++ err.Error)]
     | none => []) ++
    [.logInfoln ["Shutdown() sent.  Sending exit."], .sendExit true]

/-! ## The two server goroutines (lines 113-146) -/

/-- How a server goroutine stops: it returns, it panics with a message, or it panics in the
runtime because `err.Error()` is evaluated on a nil `err`. -/
inductive GoroutineStop where
  | returned
  | panicked (msg : String)
  | nilDereference
deriving DecidableEq, Repr

/-- Whether the goroutine stopped by a panic (of either kind). -/
def GoroutineStop.isPanic : GoroutineStop → Bool
  | .returned => false
  | .panicked _ => true
  | .nilDereference => true

/-- Go runtime: a panic that no deferred function recovers terminates the whole program.
Neither server goroutine defers anything, so every panic there aborts the process. -/
def GoroutineStop.abortsProcess (s : GoroutineStop) : Bool := s.isPanic

/-- A run of a server goroutine. -/
structure GoroutineRun where
  trace : List Event
  stop : GoroutineStop

/-- The route table of lines 116-127, in registration order. -/
def routeTable : List MuxEntry :=
  [ ⟨"/ws", .wsHandler⟩,
    ⟨"/static/js/", .wsStaticFiles⟩,
    ⟨"/static/css/", .wsStaticFiles⟩,
    ⟨"/static/img/", .wsImages⟩,
    ⟨"/static/main.wasm", .wsWasmFile⟩,
    ⟨"/emotes/", .wsEmotes⟩,
    ⟨"/favicon.ico", .wsStaticFiles⟩,
    ⟨"/chat", .handleIndexTemplate⟩,
    ⟨"/video", .handleIndexTemplate⟩,
    ⟨"/help", .handleHelpTemplate⟩,
    ⟨"/", .handleDefault⟩ ]

/-- The method `mux.HandleFunc(pattern, h)`. -/
def ServeMux.HandleFunc (mux : ServeMux) (pattern : String) (h : HandlerFunc) : ServeMux :=
  mux ++ [⟨pattern, h⟩]

/-- The mux that the chat/HTTP goroutine builds with its eleven `HandleFunc` calls. -/
def chatMux : ServeMux :=
  routeTable.foldl (fun mux e => mux.HandleFunc e.pattern e.h) []

/-- The chat/HTTP goroutine (lines 113-136) in a run where `ListenAndServe` returns `err`
(`none` being nil).  It registers the routes, installs the mux as the handler of the server
and serves; it panics unless `err` is `http.ErrServerClosed`, otherwise logs and returns.
With a nil `err` the argument of `panic` cannot be built: `err.Error()` panics in the
runtime. -/
def chatHttpGoroutine (err : Option GoError) : GoroutineRun :=
  let t : List Event :=
    [.newServeMux] ++ routeTable.map (fun e => Event.handleFunc e.pattern e.h) ++
      [.setHandler, .listenAndServe .chatHttp]
  if err ≠ some .ErrServerClosed then
    match err with
    | some e =>
      { trace := t, stop := .panicked ("Error trying to start chat/http server: " ++ e.Error) }
    | none => { trace := t, stop := .nilDereference }
  else { trace := t ++ [.logDebugln "ChatServer closed."], stop := .returned }

/-- The RTMP goroutine (lines 139-146) in a run where `ListenAndServe` returns `err`: the
same test and the same two outcomes as in the chat/HTTP goroutine. -/
def rtmpGoroutine (err : Option GoError) : GoroutineRun :=
  let t : List Event := [.listenAndServe .rtmp]
  if err ≠ some .ErrServerClosed then
    match err with
    | some e =>
      { trace := t, stop := .panicked ("Error trying to start rtmp server: " ++ e.Error) }
    | none => { trace := t, stop := .nilDereference }
  else { trace := t ++ [.logDebugln "RTMP server closed."], stop := .returned }

/-! ## `net/http` request routing -/

/-- The function `strings.HasPrefix(s, pre)`. -/
def hasPrefix (s pre : String) : Bool :=
  pre.data.isPrefixOf s.data

/-- Whether a pattern ends in a slash (a subtree pattern). -/
def endsInSlash (pattern : String) : Bool :=
  pattern.data.getLast? == some '/'

/-- The entry with the longest pattern. -/
def longestEntry : List MuxEntry → Option MuxEntry
  | [] => none
  | e :: es =>
    match longestEntry es with
    | none => some e
    | some b => if e.pattern.length < b.pattern.length then some b else some e

/-- Matching of `http.ServeMux`: a pattern equal to the path wins; otherwise the longest
pattern ending in a slash that is a prefix of the path; `none` when no pattern matches
(the mux then answers with its own not-found handler). -/
def ServeMux.matchPath (mux : ServeMux) (path : String) : Option HandlerFunc :=
  match mux.find? (fun e => e.pattern == path) with
  | some e => some e.h
  | none =>
    (longestEntry (mux.filter (fun e => endsInSlash e.pattern && hasPrefix path e.pattern))).map
      (fun e => e.h)

/-! ## Concrete runs and event recognisers -/

/-- Settings as a `settings.json` with a stream key and the listen address `:8089` gives. -/
def demoSettings : Settings :=
  { StreamKey := "secret", ListenAddress := ":8089", AdminPassword := "admin",
    StreamStats := true }

/-- The stream key `GetStreamKey` reports: the temporary key when one is set. -/
def demoGetStreamKey (s : Settings) (tempKey : Option String) : String :=
  tempKey.getD s.StreamKey

/-- The run `MovieNight -l :9000` with a loadable `settings.json`. -/
def envListenFlag : Env :=
  { flagL := some ":9000", flagK := none, loadSettings := .ok demoSettings,
    setupLogging := none, save := none, newChatRoom := none,
    getStreamKey := demoGetStreamKey }

/-- The run `MovieNight -k abc` with a loadable `settings.json`. -/
def envKeyFlag : Env :=
  { flagL := none, flagK := some "abc", loadSettings := .ok demoSettings,
    setupLogging := none, save := none, newChatRoom := none,
    getStreamKey := demoGetStreamKey }

/-- The run `MovieNight -k abc` in a directory without `settings.json`. -/
def envKeyFlagNoSettings : Env :=
  { flagL := none, flagK := some "abc",
    loadSettings := .error (.other "open settings.json: no such file or directory"),
    setupLogging := none, save := none, newChatRoom := none,
    getStreamKey := demoGetStreamKey }

/-- The HTTP server `main` constructs in the run `envKeyFlag`. -/
def demoChatServer : HttpServer :=
  { Addr := ":8089", ReadTimeout := 10000000000, WriteTimeout := 10000000000,
    MaxHeaderBytes := 1048576, onShutdown := [[.chatShutdown]], Handler := none }

/-- Recognises a `settings.SetTempKey` call. -/
def isSetTempKey : Event → Bool
  | .setTempKey _ => true
  | _ => false

/-- Recognises a `RegisterOnShutdown` call. -/
def isRegisterOnShutdown : Event → Bool
  | .registerOnShutdown _ => true
  | _ => false

/-- Recognises a `signal.Notify` call. -/
def isSignalNotify : Event → Bool
  | .signalNotify _ => true
  | _ => false

/-- Recognises a call of `Shutdown` on the HTTP server. -/
def isShutdownCall : Event → Bool
  | .shutdownCall _ => true
  | _ => false

/-- The start-up checks all pass: the settings load gives `s` with a non-empty stream key,
and neither the logging set-up, the save nor the chat-room construction fails. -/
def StartsWith (env : Env) (s : Settings) : Prop :=
  env.loadSettings = Except.ok s ∧ s.StreamKey ≠ "" ∧ env.setupLogging = none ∧
    env.save = none ∧ env.newChatRoom = none

/-! ## Auxiliary facts -/

/-- A string of length zero is the empty string (`len(s) == 0` in Go). -/
theorem string_length_eq_zero (s : String) : s.length = 0 ↔ s = "" := by
  constructor
  · intro h
    have hd : s.data = [] := List.length_eq_zero.mp h
    exact String.ext hd
  · rintro rfl
    rfl

/-- The hooks started by `Shutdown` only produce hook-call events. -/
theorem mem_runHooks (hs : List Hook) (e : Event) (h : e ∈ runHooks hs) :
    ∃ c, e = Event.hookCall c := by
  induction hs with
  | nil => simp [runHooks] at h
  | cons f fs ih =>
    simp only [runHooks, List.mem_append, List.mem_map] at h
    rcases h with ⟨c, _, rfl⟩ | h
    · exact ⟨c, rfl⟩
    · exact ih h

/-- No `stats.Print` call is made by a shutdown hook. -/
theorem count_statsPrint_runHooks (hs : List Hook) :
    (runHooks hs).count Event.statsPrint = 0 := by
  rw [List.count_eq_zero]
  intro h
  obtain ⟨c, hc⟩ := mem_runHooks hs _ h
  cases hc

/-- What `setupSettings` does when every check passes. -/
theorem setupSettings_of_startsWith (env : Env) (s : Settings) (h : StartsWith env s) :
    setupSettings env
      = ([Event.loadSettings "settings.json", Event.setupLogging, Event.save], Except.ok s) := by
  obtain ⟨flagL, flagK, load, logging, save, chat, gsk⟩ := env
  obtain ⟨h1, h2, h3, h4, -⟩ := h
  simp only at h1 h3 h4
  subst h1 h3 h4
  have hlen : ¬ s.StreamKey.length = 0 := fun h => h2 ((string_length_eq_zero _).mp h)
  simp [setupSettings, hlen]

/-- The run of `main` when every start-up check passes. -/
theorem main_of_startsWith (env : Env) (s : Settings) (h : StartsWith env s) :
    main env =
      { trace :=
          [Event.flagParse, Event.formatRegisterAll, Event.loadSettings "settings.json",
            Event.setupLogging, Event.save, Event.newChatRoom] ++
          (if flagStringVar "" env.flagK != "" then
            [Event.setTempKey (flagStringVar "" env.flagK)] else []) ++
          [Event.getStreamKey,
           Event.logInfoln ["Stream key: ", env.getStreamKey s
             (if flagStringVar "" env.flagK != "" then some (flagStringVar "" env.flagK)
              else none)],
           Event.logInfoln ["Admin password: ", s.AdminPassword],
           Event.logInfoln ["Listen and serve ",
             if flagStringVar ":8089" env.flagL != "" then s.ListenAddress
             else flagStringVar ":8089" env.flagL],
           Event.newRtmpServer
             { HandlePlay := RtmpCallback.handlePlay, HandlePublish := RtmpCallback.handlePublish },
           Event.newHttpServer
             (if flagStringVar ":8089" env.flagL != "" then s.ListenAddress
              else flagStringVar ":8089" env.flagL),
           Event.registerOnShutdown [Call.chatShutdown],
           Event.makeChanExit, Event.go Goroutine.signalHandler, Event.go Goroutine.chatHttp,
           Event.go Goroutine.rtmp, Event.recvExit],
        stop := MainStop.blockedOnExit,
        chatServer := some
          { Addr := if flagStringVar ":8089" env.flagL != "" then s.ListenAddress
              else flagStringVar ":8089" env.flagL,
            ReadTimeout := 10 * timeSecond, WriteTimeout := 10 * timeSecond,
            MaxHeaderBytes := 1 <<< 20, onShutdown := [[Call.chatShutdown]], Handler := none },
        server := some
          { HandlePlay := RtmpCallback.handlePlay, HandlePublish := RtmpCallback.handlePublish },
        settings := some s } := by
  have hs := setupSettings_of_startsWith env s h
  obtain ⟨-, -, -, -, h5⟩ := h
  simp [main, hs, h5, HttpServer.RegisterOnShutdown]

/-- A run of `main` that does not pass the start-up checks stops with `os.Exit(1)`, having
constructed no server and called neither `SetTempKey` nor anything after it. -/
theorem main_of_not_startsWith (env : Env) (h : ∀ s, ¬ StartsWith env s) :
    (main env).stop = MainStop.osExit 1 ∧ (main env).chatServer = none ∧
    (∀ k, Event.setTempKey k ∉ (main env).trace) := by
  obtain ⟨flagL, flagK, load, logging, save, chat, gsk⟩ := env
  rcases load with e | s
  · simp [main, setupSettings]
  · by_cases hk : s.StreamKey = ""
    · simp [main, setupSettings, hk]
    · have hlen : ¬ s.StreamKey.length = 0 := fun h => hk ((string_length_eq_zero _).mp h)
      rcases logging with _ | e1 <;> rcases save with _ | e2 <;> rcases chat with _ | e3 <;>
        first
          | (simp [main, setupSettings, hk, hlen]; done)
          | exact absurd (And.intro rfl (And.intro hk (And.intro rfl (And.intro rfl rfl)))) (h s)

/-- Every run of `main` either passes the start-up checks with some settings or none. -/
theorem startsWith_or_not (env : Env) : (∃ s, StartsWith env s) ∨ ∀ s, ¬ StartsWith env s := by
  by_cases h : ∃ s, StartsWith env s
  · exact Or.inl h
  · exact Or.inr (fun s hs => h ⟨s, hs⟩)

/-- A run in which `main` has constructed its HTTP server passed the start-up checks. -/
theorem startsWith_of_chatServer (env : Env) (srv : HttpServer)
    (h : (main env).chatServer = some srv) : ∃ s, StartsWith env s := by
  rcases startsWith_or_not env with hs | hs
  · exact hs
  · rw [(main_of_not_startsWith env hs).2.1] at h
    cases h

/-- A run in which `main` blocks on `<-exit` passed the start-up checks. -/
theorem startsWith_of_blocked (env : Env) (h : (main env).stop = MainStop.blockedOnExit) :
    ∃ s, StartsWith env s := by
  rcases startsWith_or_not env with hs | hs
  · exact hs
  · rw [(main_of_not_startsWith env hs).1] at h
    cases h

/-- The function `hasPrefix` decides the prefix relation on the characters. -/
theorem hasPrefix_iff (s pre : String) : hasPrefix s pre = true ↔ pre.data <+: s.data := by
  simp [hasPrefix]

/-- A prefix of a prefix of `p` is a prefix of `p`. -/
theorem hasPrefix_trans (p a b : String) (h1 : hasPrefix p a = true)
    (h2 : hasPrefix a b = true) : hasPrefix p b = true := by
  rw [hasPrefix_iff] at *
  exact h2.trans h1

/-- Of two prefixes of `p`, the shorter is a prefix of the longer. -/
theorem hasPrefix_of_both (p a b : String) (h1 : hasPrefix p a = true)
    (h2 : hasPrefix p b = true) (hl : a.length ≤ b.length) : hasPrefix b a = true := by
  rw [hasPrefix_iff] at *
  exact List.prefix_of_prefix_length_le h1 h2 hl

/-- Two patterns neither of which is a prefix of the other are not both prefixes of `p`. -/
theorem hasPrefix_exclusive (p a b : String) (h1 : hasPrefix p a = true)
    (hab : hasPrefix b a = false) (hba : hasPrefix a b = false) :
    hasPrefix p b = false := by
  cases h2 : hasPrefix p b
  · rfl
  · rcases Nat.le_total a.length b.length with hl | hl
    · rw [hasPrefix_of_both p a b h1 h2 hl] at hab
      cases hab
    · rw [hasPrefix_of_both p b a h2 h1 hl] at hba
      cases hba

/-- A path with prefix `a` differs from every pattern that does not have prefix `a`. -/
theorem beq_false_of_not_hasPrefix (p a b : String) (h1 : hasPrefix p a = true)
    (h2 : hasPrefix b a = false) : (b == p) = false := by
  cases hb : b == p
  · rfl
  · have hbp : b = p := by simpa using hb
    subst hbp
    rw [h1] at h2
    cases h2

/-- A path without prefix `a` differs from every pattern that has prefix `a`. -/
theorem beq_false_of_hasPrefix (p a b : String) (h1 : hasPrefix p a = false)
    (h2 : hasPrefix b a = true) : (b == p) = false := by
  cases hb : b == p
  · rfl
  · have hbp : b = p := by simpa using hb
    subst hbp
    rw [h1] at h2
    cases h2

/-- A path different from a pattern. -/
theorem beq_false_of_ne (p b : String) (h : p ≠ b) : (b == p) = false := by
  cases hb : b == p
  · rfl
  · have hbp : b = p := by simpa using hb
    exact absurd hbp.symm h

/-- The mux built by the goroutine holds the route table, in order. -/
theorem chatMux_eq : chatMux = routeTable := by
  decide

/-- The subtree patterns of the route table that are prefixes of a path. -/
theorem filter_routeTable (p : String) :
    routeTable.filter (fun e => endsInSlash e.pattern && hasPrefix p e.pattern)
      = (if hasPrefix p "/static/js/" then [⟨"/static/js/", HandlerFunc.wsStaticFiles⟩]
          else []) ++
        (if hasPrefix p "/static/css/" then [⟨"/static/css/", HandlerFunc.wsStaticFiles⟩]
          else []) ++
        (if hasPrefix p "/static/img/" then [⟨"/static/img/", HandlerFunc.wsImages⟩]
          else []) ++
        (if hasPrefix p "/emotes/" then [⟨"/emotes/", HandlerFunc.wsEmotes⟩] else []) ++
        (if hasPrefix p "/" then [⟨"/", HandlerFunc.handleDefault⟩] else []) := by
  have s1 : endsInSlash "/ws" = false := by decide
  have s2 : endsInSlash "/static/js/" = true := by decide
  have s3 : endsInSlash "/static/css/" = true := by decide
  have s4 : endsInSlash "/static/img/" = true := by decide
  have s5 : endsInSlash "/static/main.wasm" = false := by decide
  have s6 : endsInSlash "/emotes/" = true := by decide
  have s7 : endsInSlash "/favicon.ico" = false := by decide
  have s8 : endsInSlash "/chat" = false := by decide
  have s9 : endsInSlash "/video" = false := by decide
  have s10 : endsInSlash "/help" = false := by decide
  have s11 : endsInSlash "/" = true := by decide
  simp only [routeTable, List.filter_cons, List.filter_nil, s1, s2, s3, s4, s5, s6, s7, s8,
    s9, s10, s11, Bool.false_and, Bool.true_and]
  cases hasPrefix p "/static/js/" <;> cases hasPrefix p "/static/css/" <;>
    cases hasPrefix p "/static/img/" <;> cases hasPrefix p "/emotes/" <;>
    cases hasPrefix p "/" <;> rfl

/-- Routing of a path under one of the four subtree patterns other than the root. -/
theorem matchPath_subtree (p : String) (e : MuxEntry)
    (he : e ∈ [(⟨"/static/js/", HandlerFunc.wsStaticFiles⟩ : MuxEntry),
      ⟨"/static/css/", HandlerFunc.wsStaticFiles⟩, ⟨"/static/img/", HandlerFunc.wsImages⟩,
      ⟨"/emotes/", HandlerFunc.wsEmotes⟩])
    (h : hasPrefix p e.pattern = true) : chatMux.matchPath p = some e.h := by
  have hroot : hasPrefix p "/" = true := by
    refine hasPrefix_trans p e.pattern "/" h ?_
    simp only [List.mem_cons, List.mem_singleton, List.not_mem_nil, or_false] at he
    rcases he with rfl | rfl | rfl | rfl <;> decide
  simp only [List.mem_cons, List.mem_singleton, List.not_mem_nil, or_false] at he
  rw [chatMux_eq, ServeMux.matchPath, filter_routeTable]
  rcases he with rfl | rfl | rfl | rfl
  · have x1 := beq_false_of_not_hasPrefix p "/static/js/" "/ws" h (by decide)
    have x3 := beq_false_of_not_hasPrefix p "/static/js/" "/static/css/" h (by decide)
    have x4 := beq_false_of_not_hasPrefix p "/static/js/" "/static/img/" h (by decide)
    have x5 := beq_false_of_not_hasPrefix p "/static/js/" "/static/main.wasm" h (by decide)
    have x6 := beq_false_of_not_hasPrefix p "/static/js/" "/emotes/" h (by decide)
    have x7 := beq_false_of_not_hasPrefix p "/static/js/" "/favicon.ico" h (by decide)
    have x8 := beq_false_of_not_hasPrefix p "/static/js/" "/chat" h (by decide)
    have x9 := beq_false_of_not_hasPrefix p "/static/js/" "/video" h (by decide)
    have x10 := beq_false_of_not_hasPrefix p "/static/js/" "/help" h (by decide)
    have x11 := beq_false_of_not_hasPrefix p "/static/js/" "/" h (by decide)
    have y3 := hasPrefix_exclusive p "/static/js/" "/static/css/" h (by decide) (by decide)
    have y4 := hasPrefix_exclusive p "/static/js/" "/static/img/" h (by decide) (by decide)
    have y6 := hasPrefix_exclusive p "/static/js/" "/emotes/" h (by decide) (by decide)
    simp only [routeTable, List.find?, x1, x3, x4, x5, x6, x7, x8, x9, x10, x11, h, y3, y4,
      y6, hroot]
    cases "/static/js/" == p <;> decide
  · have x1 := beq_false_of_not_hasPrefix p "/static/css/" "/ws" h (by decide)
    have x2 := beq_false_of_not_hasPrefix p "/static/css/" "/static/js/" h (by decide)
    have x4 := beq_false_of_not_hasPrefix p "/static/css/" "/static/img/" h (by decide)
    have x5 := beq_false_of_not_hasPrefix p "/static/css/" "/static/main.wasm" h (by decide)
    have x6 := beq_false_of_not_hasPrefix p "/static/css/" "/emotes/" h (by decide)
    have x7 := beq_false_of_not_hasPrefix p "/static/css/" "/favicon.ico" h (by decide)
    have x8 := beq_false_of_not_hasPrefix p "/static/css/" "/chat" h (by decide)
    have x9 := beq_false_of_not_hasPrefix p "/static/css/" "/video" h (by decide)
    have x10 := beq_false_of_not_hasPrefix p "/static/css/" "/help" h (by decide)
    have x11 := beq_false_of_not_hasPrefix p "/static/css/" "/" h (by decide)
    have y2 := hasPrefix_exclusive p "/static/css/" "/static/js/" h (by decide) (by decide)
    have y4 := hasPrefix_exclusive p "/static/css/" "/static/img/" h (by decide) (by decide)
    have y6 := hasPrefix_exclusive p "/static/css/" "/emotes/" h (by decide) (by decide)
    simp only [routeTable, List.find?, x1, x2, x4, x5, x6, x7, x8, x9, x10, x11, h, y2, y4,
      y6, hroot]
    cases "/static/css/" == p <;> decide
  · have x1 := beq_false_of_not_hasPrefix p "/static/img/" "/ws" h (by decide)
    have x2 := beq_false_of_not_hasPrefix p "/static/img/" "/static/js/" h (by decide)
    have x3 := beq_false_of_not_hasPrefix p "/static/img/" "/static/css/" h (by decide)
    have x5 := beq_false_of_not_hasPrefix p "/static/img/" "/static/main.wasm" h (by decide)
    have x6 := beq_false_of_not_hasPrefix p "/static/img/" "/emotes/" h (by decide)
    have x7 := beq_false_of_not_hasPrefix p "/static/img/" "/favicon.ico" h (by decide)
    have x8 := beq_false_of_not_hasPrefix p "/static/img/" "/chat" h (by decide)
    have x9 := beq_false_of_not_hasPrefix p "/static/img/" "/video" h (by decide)
    have x10 := beq_false_of_not_hasPrefix p "/static/img/" "/help" h (by decide)
    have x11 := beq_false_of_not_hasPrefix p "/static/img/" "/" h (by decide)
    have y2 := hasPrefix_exclusive p "/static/img/" "/static/js/" h (by decide) (by decide)
    have y3 := hasPrefix_exclusive p "/static/img/" "/static/css/" h (by decide) (by decide)
    have y6 := hasPrefix_exclusive p "/static/img/" "/emotes/" h (by decide) (by decide)
    simp only [routeTable, List.find?, x1, x2, x3, x5, x6, x7, x8, x9, x10, x11, h, y2, y3,
      y6, hroot]
    cases "/static/img/" == p <;> decide
  · have x1 := beq_false_of_not_hasPrefix p "/emotes/" "/ws" h (by decide)
    have x2 := beq_false_of_not_hasPrefix p "/emotes/" "/static/js/" h (by decide)
    have x3 := beq_false_of_not_hasPrefix p "/emotes/" "/static/css/" h (by decide)
    have x4 := beq_false_of_not_hasPrefix p "/emotes/" "/static/img/" h (by decide)
    have x5 := beq_false_of_not_hasPrefix p "/emotes/" "/static/main.wasm" h (by decide)
    have x7 := beq_false_of_not_hasPrefix p "/emotes/" "/favicon.ico" h (by decide)
    have x8 := beq_false_of_not_hasPrefix p "/emotes/" "/chat" h (by decide)
    have x9 := beq_false_of_not_hasPrefix p "/emotes/" "/video" h (by decide)
    have x10 := beq_false_of_not_hasPrefix p "/emotes/" "/help" h (by decide)
    have x11 := beq_false_of_not_hasPrefix p "/emotes/" "/" h (by decide)
    have y2 := hasPrefix_exclusive p "/emotes/" "/static/js/" h (by decide) (by decide)
    have y3 := hasPrefix_exclusive p "/emotes/" "/static/css/" h (by decide) (by decide)
    have y4 := hasPrefix_exclusive p "/emotes/" "/static/img/" h (by decide) (by decide)
    simp only [routeTable, List.find?, x1, x2, x3, x4, x5, x7, x8, x9, x10, x11, h, y2, y3,
      y4, hroot]
    cases "/emotes/" == p <;> decide

/-- Routing of a path that is none of the six exact patterns and under none of the four
subtree patterns other than the root. -/
theorem matchPath_other (p : String)
    (n1 : p ≠ "/ws") (n5 : p ≠ "/static/main.wasm") (n7 : p ≠ "/favicon.ico")
    (n8 : p ≠ "/chat") (n9 : p ≠ "/video") (n10 : p ≠ "/help")
    (y2 : hasPrefix p "/static/js/" = false) (y3 : hasPrefix p "/static/css/" = false)
    (y4 : hasPrefix p "/static/img/" = false) (y6 : hasPrefix p "/emotes/" = false) :
    chatMux.matchPath p
      = if hasPrefix p "/" then some HandlerFunc.handleDefault else none := by
  have x1 := beq_false_of_ne p "/ws" n1
  have x5 := beq_false_of_ne p "/static/main.wasm" n5
  have x7 := beq_false_of_ne p "/favicon.ico" n7
  have x8 := beq_false_of_ne p "/chat" n8
  have x9 := beq_false_of_ne p "/video" n9
  have x10 := beq_false_of_ne p "/help" n10
  have x2 := beq_false_of_hasPrefix p "/static/js/" "/static/js/" y2 (by decide)
  have x3 := beq_false_of_hasPrefix p "/static/css/" "/static/css/" y3 (by decide)
  have x4 := beq_false_of_hasPrefix p "/static/img/" "/static/img/" y4 (by decide)
  have x6 := beq_false_of_hasPrefix p "/emotes/" "/emotes/" y6 (by decide)
  rw [chatMux_eq, ServeMux.matchPath, filter_routeTable]
  cases hroot : hasPrefix p "/"
  · have x11 := beq_false_of_hasPrefix p "/" "/" hroot (by decide)
    simp only [routeTable, List.find?, x1, x2, x3, x4, x5, x6, x7, x8, x9, x10, x11, y2, y3,
      y4, y6]
    decide
  · simp only [routeTable, List.find?, x1, x2, x3, x4, x5, x6, x7, x8, x9, x10, y2, y3,
      y4, y6]
    cases "/" == p <;> decide

/-! ## The claims -/

/-- C1: in every run of the termination-signal handler, `stats.Print` is called exactly once
when `settings.StreamStats` is true and not at all when it is false, and every such call lies
before the call of `chatServer.Shutdown` (hence before any shutdown hook runs): the trace
splits at the one `Shutdown` call into a part without `Shutdown` or hook events and a part
without `stats.Print`. -/
theorem C1_stats_printed_before_shutdown (settings : Settings) (chatServer : HttpServer)
    (shutdown : Option (Option GoError)) :
    (signalHandler settings chatServer shutdown).count Event.statsPrint
        = (if settings.StreamStats then 1 else 0) ∧
    ∃ pre post,
      signalHandler settings chatServer shutdown
        = pre ++ Event.shutdownCall contextBackground :: post ∧
      pre.count Event.statsPrint = (if settings.StreamStats then 1 else 0) ∧
      (∀ ctx, Event.shutdownCall ctx ∉ pre) ∧
      (∀ c, Event.hookCall c ∉ pre) ∧
      Event.statsPrint ∉ post := by
  have hpost : Event.statsPrint ∉ runHooks chatServer.onShutdown := by
    intro h
    obtain ⟨c, hc⟩ := mem_runHooks _ _ h
    cases hc
  refine ⟨?_, [.makeChanSignal, .signalNotify [osInterrupt], .recvSignal,
      .logInfoln ["Closing server"]] ++ (if settings.StreamStats then [.statsPrint] else []),
    runHooks chatServer.onShutdown ++
      (match shutdown with
        | none => []
        | some r =>
          [.shutdownReturn r] ++
          (match r with
           | some err => [.logErrorf ("Error shutting down chat server: " ++ err.Error)]
           | none => []) ++
          [.logInfoln ["Shutdown() sent.  Sending exit."], .sendExit true]),
    ?_, ?_, ?_, ?_, ?_⟩
  · rcases shutdown with _ | _ | err <;> cases hs : settings.StreamStats <;>
      simp [signalHandler, hs, List.count_cons, count_statsPrint_runHooks]
  · simp [signalHandler]
  · cases hs : settings.StreamStats <;> simp [List.count_cons]
  · intro ctx
    cases hs : settings.StreamStats <;> simp
  · intro c
    cases hs : settings.StreamStats <;> simp
  · rcases shutdown with _ | _ | err <;> simp [hpost]

/-- C4: a server goroutine whose `ListenAndServe` returns anything other than
`http.ErrServerClosed` panics, which aborts the process, and never reaches its "closed" log
line; it logs "closed" and returns normally exactly when the returned error is
`http.ErrServerClosed`.  This holds for the chat/HTTP goroutine and for the RTMP goroutine. -/
theorem C4_server_failure_is_fatal (errHttp errRtmp : Option GoError) :
    ((chatHttpGoroutine errHttp).stop = GoroutineStop.returned ↔
        errHttp = some GoError.ErrServerClosed) ∧
    (Event.logDebugln "ChatServer closed." ∈ (chatHttpGoroutine errHttp).trace ↔
        errHttp = some GoError.ErrServerClosed) ∧
    ((chatHttpGoroutine errHttp).stop.isPanic = true ↔
        errHttp ≠ some GoError.ErrServerClosed) ∧
    ((chatHttpGoroutine errHttp).stop.abortsProcess = true ↔
        errHttp ≠ some GoError.ErrServerClosed) ∧
    (∀ e, errHttp = some e → e ≠ GoError.ErrServerClosed →
        (chatHttpGoroutine errHttp).stop
          = GoroutineStop.panicked ("Error trying to start chat/http server: " ++ e.Error)) ∧
    ((rtmpGoroutine errRtmp).stop = GoroutineStop.returned ↔
        errRtmp = some GoError.ErrServerClosed) ∧
    (Event.logDebugln "RTMP server closed." ∈ (rtmpGoroutine errRtmp).trace ↔
        errRtmp = some GoError.ErrServerClosed) ∧
    ((rtmpGoroutine errRtmp).stop.isPanic = true ↔
        errRtmp ≠ some GoError.ErrServerClosed) ∧
    ((rtmpGoroutine errRtmp).stop.abortsProcess = true ↔
        errRtmp ≠ some GoError.ErrServerClosed) ∧
    (∀ e, errRtmp = some e → e ≠ GoError.ErrServerClosed →
        (rtmpGoroutine errRtmp).stop
          = GoroutineStop.panicked ("Error trying to start rtmp server: " ++ e.Error)) := by
  refine ⟨?_, ?_, ?_, ?_, ?_, ?_, ?_, ?_, ?_, ?_⟩
  · rcases errHttp with _ | _ | m <;>
      simp [chatHttpGoroutine]
  · rcases errHttp with _ | _ | m <;>
      simp [chatHttpGoroutine, routeTable]
  · rcases errHttp with _ | _ | m <;>
      simp [chatHttpGoroutine, GoroutineStop.isPanic]
  · rcases errHttp with _ | _ | m <;>
      simp [chatHttpGoroutine, GoroutineStop.abortsProcess,
        GoroutineStop.isPanic]
  · rintro e rfl he
    cases e with
    | ErrServerClosed => exact absurd rfl he
    | other m => simp [chatHttpGoroutine]
  · rcases errRtmp with _ | _ | m <;>
      simp [rtmpGoroutine]
  · rcases errRtmp with _ | _ | m <;>
      simp [rtmpGoroutine]
  · rcases errRtmp with _ | _ | m <;>
      simp [rtmpGoroutine, GoroutineStop.isPanic]
  · rcases errRtmp with _ | _ | m <;>
      simp [rtmpGoroutine, GoroutineStop.abortsProcess,
        GoroutineStop.isPanic]
  · rintro e rfl he
    cases e with
    | ErrServerClosed => exact absurd rfl he
    | other m => simp [rtmpGoroutine]

/-- C6: whatever `chatServer.Shutdown` returns (nil or an error), the handler then sends on
`exit`, and a main goroutine blocked on `<-exit` returns.  The handler's trace is
`pre`, the return of `Shutdown`, `mid`, the send: no send on `exit` occurs before `Shutdown`
has returned, an error is logged exactly once, between the return and the send, and a nil
result is not logged. -/
theorem C6_shutdown_error_does_not_block_exit (settings : Settings) (chatServer : HttpServer)
    (r : Option GoError) :
    (∃ pre mid,
      signalHandler settings chatServer (some r)
        = pre ++ [Event.shutdownReturn r] ++ mid ++ [Event.sendExit true] ∧
      (∀ v, Event.sendExit v ∉ pre) ∧ (∀ v, Event.sendExit v ∉ mid) ∧
      (∀ m, Event.logErrorf m ∉ pre) ∧
      (r = none → ∀ m, Event.logErrorf m ∉ mid) ∧
      (∀ err, r = some err →
        mid.count (Event.logErrorf ("Error shutting down chat server: " ++ err.Error)) = 1 ∧
        ∀ m, Event.logErrorf m ∈ mid →
          m = "Error shutting down chat server: " ++ err.Error)) ∧
    (∀ env, (main env).stop = MainStop.blockedOnExit →
      ((main env).resume (signalHandler settings chatServer (some r))).stop
        = MainStop.returned) := by
  have hhook : ∀ e, e ∈ runHooks chatServer.onShutdown → ∃ c, e = Event.hookCall c :=
    fun e h => mem_runHooks _ e h
  constructor
  · refine ⟨[.makeChanSignal, .signalNotify [osInterrupt], .recvSignal,
        .logInfoln ["Closing server"]] ++ (if settings.StreamStats then [.statsPrint] else []) ++
        [.shutdownCall contextBackground] ++ runHooks chatServer.onShutdown,
      (match r with
        | some err => [.logErrorf ("Error shutting down chat server: " ++ err.Error)]
        | none => []) ++ [.logInfoln ["Shutdown() sent.  Sending exit."]],
      ?_, ?_, ?_, ?_, ?_, ?_⟩
    · simp [signalHandler]
    · intro v hv
      simp only [List.mem_append] at hv
      rcases hv with (hv | hv) | hv
      · cases hs : settings.StreamStats <;> simp [hs] at hv
      · simp at hv
      · obtain ⟨c, hc⟩ := hhook _ hv
        cases hc
    · intro v
      cases r <;> simp
    · intro m hm
      simp only [List.mem_append] at hm
      rcases hm with (hm | hm) | hm
      · cases hs : settings.StreamStats <;> simp [hs] at hm
      · simp at hm
      · obtain ⟨c, hc⟩ := hhook _ hm
        cases hc
    · rintro rfl m
      simp
    · rintro err rfl
      simp [List.count_cons]
  · intro env henv
    have hsend : Event.sendExit true ∈ signalHandler settings chatServer (some r) := by
      simp [signalHandler]
    simp [MainRun.resume, henv, hsend]

/-- C6, at the run `MovieNight -k abc` when `Shutdown` fails with an error: `main` is
blocked on `<-exit` and returns once the handler has run. -/
theorem C6_shutdown_error_does_not_block_exit_witness :
    (main envKeyFlag).stop = MainStop.blockedOnExit ∧
    ((main envKeyFlag).resume
      (signalHandler demoSettings demoChatServer
        (some (some (GoError.other "context deadline exceeded"))))).stop
      = MainStop.returned :=
  ⟨by decide,
    (C6_shutdown_error_does_not_block_exit demoSettings demoChatServer
      (some (GoError.other "context deadline exceeded"))).2 envKeyFlag (by decide)⟩

/-- C5: `main` stops with `os.Exit(1)` exactly when `LoadSettings` fails, the loaded stream
key is empty (whatever `-k` holds), `SetupLogging` fails, `Save` fails or `newChatRoom`
fails, and in that case it has constructed no server, launched no goroutine (so installed no
signal handler) and `os.Exit(1)` is its last event; otherwise it goes on to block on `<-exit`.
`setupSettings` returns nil (with settings `s`) iff the load gave `s`, its key is non-empty
and neither the logging set-up nor the save failed; and whenever it calls `Save`, the load has
succeeded with a non-empty key, the logging set-up has succeeded, and both calls precede the
`Save`. -/
theorem C5_startup_failure_exits_one (env : Env) :
    ((main env).stop = MainStop.osExit 1 ↔
      ((∃ e, env.loadSettings = Except.error e) ∨
       (∃ s, env.loadSettings = Except.ok s ∧ s.StreamKey = "") ∨
       env.setupLogging ≠ none ∨ env.save ≠ none ∨ env.newChatRoom ≠ none)) ∧
    ((main env).stop = MainStop.osExit 1 →
      (main env).chatServer = none ∧ (main env).server = none ∧
      (∀ g, Event.go g ∉ (main env).trace) ∧
      (∀ a, Event.newHttpServer a ∉ (main env).trace) ∧
      (∀ srv, Event.newRtmpServer srv ∉ (main env).trace) ∧
      (∀ f, Event.registerOnShutdown f ∉ (main env).trace) ∧
      (main env).trace.getLast? = some (Event.osExit 1)) ∧
    ((main env).stop ≠ MainStop.osExit 1 → (main env).stop = MainStop.blockedOnExit) ∧
    (∀ s, (setupSettings env).2 = Except.ok s ↔
      (env.loadSettings = Except.ok s ∧ s.StreamKey ≠ "" ∧
       env.setupLogging = none ∧ env.save = none)) ∧
    (Event.save ∈ (setupSettings env).1 →
      (∃ s, env.loadSettings = Except.ok s ∧ s.StreamKey ≠ "") ∧ env.setupLogging = none ∧
      ∃ pre post, (setupSettings env).1 = pre ++ Event.save :: post ∧
        Event.loadSettings "settings.json" ∈ pre ∧ Event.setupLogging ∈ pre ∧
        Event.save ∉ pre ∧ Event.save ∉ post) := by
  obtain ⟨flagL, flagK, load, logging, save, chat, gsk⟩ := env
  refine ⟨?_, ?_, ?_, ?_, ?_⟩
  · rcases load with e | s
    · simp [main, setupSettings]
    · by_cases hk : s.StreamKey = ""
      · simp [main, setupSettings, hk]
      · have hlen : ¬ s.StreamKey.length = 0 := fun h => hk ((string_length_eq_zero _).mp h)
        rcases logging with _ | e1 <;> rcases save with _ | e2 <;> rcases chat with _ | e3 <;>
          simp [main, setupSettings, hk, hlen]
  · rcases load with e | s
    · simp [main, setupSettings]
    · by_cases hk : s.StreamKey = ""
      · simp [main, setupSettings, hk]
      · have hlen : ¬ s.StreamKey.length = 0 := fun h => hk ((string_length_eq_zero _).mp h)
        rcases logging with _ | e1 <;> rcases save with _ | e2 <;> rcases chat with _ | e3 <;>
          simp [main, setupSettings, hk, hlen]
  · rcases load with e | s
    · simp [main, setupSettings]
    · by_cases hk : s.StreamKey = ""
      · simp [main, setupSettings, hk]
      · have hlen : ¬ s.StreamKey.length = 0 := fun h => hk ((string_length_eq_zero _).mp h)
        rcases logging with _ | e1 <;> rcases save with _ | e2 <;> rcases chat with _ | e3 <;>
          simp [main, setupSettings, hk, hlen]
  · intro s0
    rcases load with e | s
    · simp [setupSettings]
    · by_cases hk : s.StreamKey = ""
      · simp only [setupSettings, hk]
        constructor
        · intro h
          simp at h
        · rintro ⟨h1, h2, -, -⟩
          injection h1 with h1
          subst h1
          exact absurd hk h2
      · have hlen : ¬ s.StreamKey.length = 0 := fun h => hk ((string_length_eq_zero _).mp h)
        rcases logging with _ | e1 <;> rcases save with _ | e2 <;>
          simp [setupSettings, hk, hlen]
        · rintro rfl
          exact hk
  · rcases load with e | s
    · simp [setupSettings]
    · by_cases hk : s.StreamKey = ""
      · simp [setupSettings, hk]
      · have hlen : ¬ s.StreamKey.length = 0 := fun h => hk ((string_length_eq_zero _).mp h)
        rcases logging with _ | e1
        · intro _
          refine ⟨⟨s, rfl, hk⟩, rfl, [.loadSettings "settings.json", .setupLogging], [], ?_, ?_⟩
          · rcases save with _ | e2 <;> simp [setupSettings, hlen]
          · simp
        · simp [setupSettings, hk, hlen]

/-- C8: on the HTTP server `main` starts, exactly one shutdown hook is registered, and that
hook calls `chat.Shutdown`.  The registration precedes every `go` statement of `main`, hence
the goroutine that serves; no code of `main.go` calls `chat.Shutdown` directly (not `main`,
not the handler outside the hooks, not the server goroutines).  With `Shutdown` running every
registered hook once, a handled termination signal makes exactly one `chat.Shutdown` call. -/
theorem C8_chat_shutdown_only_through_hook (env : Env) (srv : HttpServer)
    (hsrv : (main env).chatServer = some srv)
    (settings : Settings) (shutdown : Option (Option GoError))
    (errHttp errRtmp : Option GoError) :
    srv.onShutdown = [[Call.chatShutdown]] ∧
    (main env).trace.filter isRegisterOnShutdown
      = [Event.registerOnShutdown [Call.chatShutdown]] ∧
    (∃ pre post,
      (main env).trace = pre ++ Event.registerOnShutdown [Call.chatShutdown] :: post ∧
      (∀ g, Event.go g ∉ pre) ∧ Event.go Goroutine.chatHttp ∈ post) ∧
    (∀ g, Event.listenAndServe g ∉ (main env).trace) ∧
    Event.listenAndServe Goroutine.chatHttp ∈ (chatHttpGoroutine errHttp).trace ∧
    (∀ c, Event.call c ∉ (main env).trace ∧ Event.hookCall c ∉ (main env).trace) ∧
    (∀ c, Event.call c ∉ signalHandler settings srv shutdown) ∧
    (∀ c, Event.call c ∉ (chatHttpGoroutine errHttp).trace ∧
          Event.hookCall c ∉ (chatHttpGoroutine errHttp).trace) ∧
    (∀ c, Event.call c ∉ (rtmpGoroutine errRtmp).trace ∧
          Event.hookCall c ∉ (rtmpGoroutine errRtmp).trace) ∧
    (signalHandler settings srv shutdown).count (Event.hookCall Call.chatShutdown) = 1 := by
  obtain ⟨s, hs⟩ := startsWith_of_chatServer env srv hsrv
  rw [main_of_startsWith env s hs] at hsrv ⊢
  simp only [Option.some.injEq] at hsrv
  subst hsrv
  refine ⟨rfl, ?_, ?_, ?_, ?_, ?_, ?_, ?_, ?_, ?_⟩
  · by_cases hk : flagStringVar "" env.flagK = "" <;>
      simp [hk, isRegisterOnShutdown, List.filter_cons]
  · refine ⟨[.flagParse, .formatRegisterAll, .loadSettings "settings.json", .setupLogging,
        .save, .newChatRoom] ++
        (if flagStringVar "" env.flagK != "" then
          [Event.setTempKey (flagStringVar "" env.flagK)] else []) ++
        [.getStreamKey, .logInfoln ["Stream key: ", env.getStreamKey s
            (if flagStringVar "" env.flagK != "" then some (flagStringVar "" env.flagK)
             else none)],
         .logInfoln ["Admin password: ", s.AdminPassword],
         .logInfoln ["Listen and serve ",
            if flagStringVar ":8089" env.flagL != "" then s.ListenAddress
            else flagStringVar ":8089" env.flagL],
         .newRtmpServer { HandlePlay := .handlePlay, HandlePublish := .handlePublish },
         .newHttpServer (if flagStringVar ":8089" env.flagL != "" then s.ListenAddress
            else flagStringVar ":8089" env.flagL)],
      [.makeChanExit, .go .signalHandler, .go .chatHttp, .go .rtmp, .recvExit], ?_, ?_, ?_⟩
    · simp
    · intro g
      by_cases hk : flagStringVar "" env.flagK = "" <;> simp [hk]
    · simp
  · intro g
    by_cases hk : flagStringVar "" env.flagK = "" <;> simp [hk]
  · rcases errHttp with _ | _ | m <;> simp [chatHttpGoroutine]
  · intro c
    by_cases hk : flagStringVar "" env.flagK = "" <;> simp [hk]
  · intro c hc
    rcases shutdown with _ | _ | err <;> cases hst : settings.StreamStats <;>
      simp [signalHandler, runHooks, hst] at hc
  · intro c
    rcases errHttp with _ | _ | m <;>
      simp [chatHttpGoroutine, routeTable]
  · intro c
    rcases errRtmp with _ | _ | m <;>
      simp [rtmpGoroutine]
  · rcases shutdown with _ | _ | err <;> cases hst : settings.StreamStats <;>
      simp [signalHandler, runHooks, hst, List.count_cons]

/-- C8, at the run `MovieNight -k abc`: the server `main` constructs is `demoChatServer`. -/
theorem C8_chat_shutdown_only_through_hook_witness :
    (main envKeyFlag).chatServer = some demoChatServer ∧
    demoChatServer.onShutdown = [[Call.chatShutdown]] ∧
    (signalHandler demoSettings demoChatServer (some none)).count
      (Event.hookCall Call.chatShutdown) = 1 :=
  have h : (main envKeyFlag).chatServer = some demoChatServer := by decide
  have t := C8_chat_shutdown_only_through_hook envKeyFlag demoChatServer h demoSettings
    (some none) none none
  ⟨h, t.1, t.2.2.2.2.2.2.2.2.2⟩

/-- C2, at the run `MovieNight -l :9000` with `ListenAddress` set to `:8089` in
`settings.json`: the HTTP server `main` constructs has `Addr` equal to `:8089`, not to the
address passed with `-l`.  In general the test on line 65 replaces every non-empty value of
`addr` (a value passed with `-l`, or the default `:8089`) by `settings.ListenAddress`, and
only an empty `-l` value is kept. -/
theorem C2_listen_flag_overwritten_by_settings :
    envListenFlag.flagL = some ":9000" ∧
    (main envListenFlag).settings = some demoSettings ∧
    demoSettings.ListenAddress = ":8089" ∧
    (main envListenFlag).chatServer.map (fun srv => srv.Addr) = some ":8089" ∧
    Event.newHttpServer ":8089" ∈ (main envListenFlag).trace ∧
    Event.newHttpServer ":9000" ∉ (main envListenFlag).trace ∧
    (∀ env srv, (main env).chatServer = some srv →
      ∃ s, (main env).settings = some s ∧
        srv.Addr = if flagStringVar ":8089" env.flagL ≠ "" then s.ListenAddress else "") := by
  refine ⟨rfl, by decide, rfl, by decide, by decide, by decide, ?_⟩
  intro env srv hsrv
  obtain ⟨s, hs⟩ := startsWith_of_chatServer env srv hsrv
  rw [main_of_startsWith env s hs] at hsrv ⊢
  simp only [Option.some.injEq] at hsrv
  subst hsrv
  refine ⟨s, rfl, ?_⟩
  by_cases ha : flagStringVar ":8089" env.flagL = "" <;> simp [ha]

/-- C3 as stated fails at the run `MovieNight -k abc` in a directory without
`settings.json`: a non-empty key is passed with `-k`, `main` exits with status 1 and
`SetTempKey` is not called at all. -/
theorem C3_no_temp_key_when_startup_fails :
    envKeyFlagNoSettings.flagK = some "abc" ∧ "abc" ≠ "" ∧
    (main envKeyFlagNoSettings).stop = MainStop.osExit 1 ∧
    (main envKeyFlagNoSettings).trace.count (Event.setTempKey "abc") = 0 ∧
    (main envKeyFlagNoSettings).trace.filter isSetTempKey = [] := by
  decide

/-- C3, amended: in a run that passes the start-up checks (so that `main` reaches `<-exit`)
with a non-empty key `k` passed with `-k`, `main` calls `SetTempKey(k)` exactly once and
makes no other `SetTempKey` call; the one `Save` call of the run is the one inside
`setupSettings`, before the `SetTempKey` call, and no `Save` follows it.  When `-k` is
absent or empty, or when `main` exits at start-up, `SetTempKey` is never called.  The three
goroutines launched by `main` call neither `Save` nor `SetTempKey`. -/
theorem C3_temp_key_set_once_and_never_saved (env : Env) :
    (∀ k, env.flagK = some k → k ≠ "" → (main env).stop = MainStop.blockedOnExit →
      (main env).trace.filter isSetTempKey = [Event.setTempKey k] ∧
      ∃ post,
        (main env).trace
          = [Event.flagParse, Event.formatRegisterAll] ++ (setupSettings env).1 ++
              [Event.newChatRoom, Event.setTempKey k] ++ post ∧
        (setupSettings env).1.count Event.save = 1 ∧
        Event.save ∉ post ∧ (∀ k2, Event.setTempKey k2 ∉ post)) ∧
    (env.flagK = none ∨ env.flagK = some "" → ∀ k, Event.setTempKey k ∉ (main env).trace) ∧
    ((main env).stop = MainStop.osExit 1 → ∀ k, Event.setTempKey k ∉ (main env).trace) ∧
    (∀ settings srv shutdown k,
      Event.save ∉ signalHandler settings srv shutdown ∧
      Event.setTempKey k ∉ signalHandler settings srv shutdown) ∧
    (∀ err k,
      Event.save ∉ (chatHttpGoroutine err).trace ∧
      Event.setTempKey k ∉ (chatHttpGoroutine err).trace ∧
      Event.save ∉ (rtmpGoroutine err).trace ∧
      Event.setTempKey k ∉ (rtmpGoroutine err).trace) := by
  refine ⟨?_, ?_, ?_, ?_, ?_⟩
  · intro k hk hne hstop
    obtain ⟨s, hs⟩ := startsWith_of_blocked env hstop
    have hflag : flagStringVar "" env.flagK = k := by simp [flagStringVar, hk]
    rw [main_of_startsWith env s hs, setupSettings_of_startsWith env s hs, hflag]
    refine ⟨by simp [hne, isSetTempKey, List.filter_cons], ?_⟩
    exact ⟨_, by simp [hne]; rfl, by simp [List.count_cons], by simp, by simp⟩
  · intro hk k
    have hflag : flagStringVar "" env.flagK = "" := by
      rcases hk with hk | hk <;> simp [flagStringVar, hk]
    rcases startsWith_or_not env with ⟨s, hs⟩ | hs
    · rw [main_of_startsWith env s hs, hflag]
      simp
    · exact (main_of_not_startsWith env hs).2.2 k
  · intro hstop k
    rcases startsWith_or_not env with ⟨s, hs⟩ | hs
    · rw [main_of_startsWith env s hs] at hstop
      cases hstop
    · exact (main_of_not_startsWith env hs).2.2 k
  · intro settings srv shutdown k
    constructor <;>
    · intro h
      rcases shutdown with _ | _ | err <;> cases hst : settings.StreamStats <;>
        simp [signalHandler, hst] at h <;>
        · obtain ⟨c, hc⟩ := mem_runHooks _ _ h
          cases hc
  · intro err k
    rcases err with _ | _ | m <;>
      simp [chatHttpGoroutine, rtmpGoroutine, routeTable]

/-- C3, amended, at the run `MovieNight -k abc` with a loadable `settings.json`. -/
theorem C3_temp_key_set_once_and_never_saved_witness :
    envKeyFlag.flagK = some "abc" ∧ (main envKeyFlag).stop = MainStop.blockedOnExit ∧
    (main envKeyFlag).trace.filter isSetTempKey = [Event.setTempKey "abc"] :=
  ⟨rfl, by decide,
    ((C3_temp_key_set_once_and_never_saved envKeyFlag).1 "abc" rfl (by decide)
      (by decide)).1⟩

/-- C7 as stated fails: the one `signal.Notify` call of the handler registers the list
`[os.Interrupt]`, that is SIGINT alone; SIGTERM is not in it and is not relayed to the
handler's channel. -/
theorem C7_sigterm_not_registered :
    (signalHandler demoSettings demoChatServer (some none)).filter isSignalNotify
      = [Event.signalNotify [Signal.SIGINT]] ∧
    Signal.SIGINT ∈ [Signal.SIGINT] ∧ Signal.SIGTERM ∉ [Signal.SIGINT] ∧
    notifyRelays [Signal.SIGINT] Signal.SIGTERM = false := by
  decide

/-- C7, amended: the handler makes exactly one `signal.Notify` call, with the single signal
`os.Interrupt` (SIGINT), and `main` and the server goroutines make none; so a signal is
relayed to the handler's channel, and triggers the shutdown sequence, iff it is SIGINT. -/
theorem C7_only_interrupt_registered (settings : Settings) (chatServer : HttpServer)
    (shutdown : Option (Option GoError)) :
    (signalHandler settings chatServer shutdown).filter isSignalNotify
      = [Event.signalNotify [osInterrupt]] ∧
    osInterrupt = Signal.SIGINT ∧
    (∀ s, notifyRelays [osInterrupt] s = true ↔ s = Signal.SIGINT) ∧
    (∀ env sigs, Event.signalNotify sigs ∉ (main env).trace) ∧
    (∀ err sigs, Event.signalNotify sigs ∉ (chatHttpGoroutine err).trace ∧
      Event.signalNotify sigs ∉ (rtmpGoroutine err).trace) := by
  have hhooks : (runHooks chatServer.onShutdown).filter isSignalNotify = [] := by
    rw [List.filter_eq_nil_iff]
    intro e he
    obtain ⟨c, rfl⟩ := mem_runHooks _ _ he
    simp [isSignalNotify]
  refine ⟨?_, rfl, ?_, ?_, ?_⟩
  · rcases shutdown with _ | _ | err <;> cases hst : settings.StreamStats <;>
      simp [signalHandler, hst, List.filter_cons, isSignalNotify, hhooks]
  · intro s
    cases s <;> simp [notifyRelays, osInterrupt]
  · intro env sigs
    rcases startsWith_or_not env with ⟨s, hs⟩ | hs
    · rw [main_of_startsWith env s hs]
      by_cases hk : flagStringVar "" env.flagK = "" <;> simp [hk]
    · obtain ⟨flagL, flagK, load, logging, save, chat, gsk⟩ := env
      rcases load with e | s
      · simp [main, setupSettings]
      · by_cases hlen : s.StreamKey.length = 0
        · simp [main, setupSettings, hlen]
        · rcases logging with _ | e1 <;> rcases save with _ | e2 <;>
            rcases chat with _ | e3 <;>
            by_cases hk : flagStringVar "" flagK = "" <;>
            simp [main, setupSettings, hlen, hk]
  · intro err sigs
    rcases err with _ | _ | m <;>
      simp [chatHttpGoroutine, rtmpGoroutine, routeTable]

/-- C9 as stated fails: the context of the one `Shutdown` call of the handler is
`context.Background()`, which carries no deadline. -/
theorem C9_shutdown_context_has_no_deadline :
    (signalHandler demoSettings demoChatServer (some none)).filter isShutdownCall
      = [Event.shutdownCall contextBackground] ∧
    contextBackground.deadline = none := by
  decide

/-- C9, amended: the handler calls `Shutdown` exactly once, with `context.Background()`, a
context without deadline that is never cancelled, so nothing in `main.go` bounds the wait.
The handler sends on `exit` iff `Shutdown` returns; when it returns, the send comes after the
return, and when it does not return the handler never sends on `exit`. -/
theorem C9_shutdown_wait_has_no_deadline (settings : Settings) (chatServer : HttpServer)
    (shutdown : Option (Option GoError)) :
    (signalHandler settings chatServer shutdown).filter isShutdownCall
      = [Event.shutdownCall contextBackground] ∧
    contextBackground.deadline = none ∧ contextBackground.cancellable = false ∧
    (Event.sendExit true ∈ signalHandler settings chatServer shutdown ↔
      ∃ r, shutdown = some r) ∧
    (∀ r, shutdown = some r →
      ∃ pre post, signalHandler settings chatServer shutdown
          = pre ++ Event.shutdownReturn r :: post ∧
        (∀ v, Event.sendExit v ∉ pre) ∧ Event.sendExit true ∈ post) ∧
    (shutdown = none →
      ∀ v r, Event.sendExit v ∉ signalHandler settings chatServer shutdown ∧
        Event.shutdownReturn r ∉ signalHandler settings chatServer shutdown) := by
  have hhooks : (runHooks chatServer.onShutdown).filter isShutdownCall = [] := by
    rw [List.filter_eq_nil_iff]
    intro e he
    obtain ⟨c, rfl⟩ := mem_runHooks _ _ he
    simp [isShutdownCall]
  have hmem : ∀ e, (∀ c, e ≠ Event.hookCall c) → e ∉ runHooks chatServer.onShutdown := by
    intro e he h
    obtain ⟨c, hc⟩ := mem_runHooks _ _ h
    exact he c hc
  refine ⟨?_, rfl, rfl, ?_, ?_, ?_⟩
  · rcases shutdown with _ | _ | err <;> cases hst : settings.StreamStats <;>
      simp [signalHandler, hst, List.filter_cons, isShutdownCall, hhooks]
  · have h1 := hmem (Event.sendExit true) (by intro c; simp)
    rcases shutdown with _ | _ | err <;> cases hst : settings.StreamStats <;>
      simp [signalHandler, hst, h1]
  · rintro r rfl
    refine ⟨[.makeChanSignal, .signalNotify [osInterrupt], .recvSignal,
        .logInfoln ["Closing server"]] ++ (if settings.StreamStats then [.statsPrint] else []) ++
        [.shutdownCall contextBackground] ++ runHooks chatServer.onShutdown,
      (match r with
        | some err => [.logErrorf ("Error shutting down chat server: " ++ err.Error)]
        | none => []) ++ [.logInfoln ["Shutdown() sent.  Sending exit."], .sendExit true],
      ?_, ?_, ?_⟩
    · simp [signalHandler]
    · intro v
      have h1 := hmem (Event.sendExit v) (by intro c; simp)
      cases hst : settings.StreamStats <;> simp [h1]
    · simp
  · rintro rfl v r
    have h1 := hmem (Event.sendExit v) (by intro c; simp)
    have h2 := hmem (Event.shutdownReturn r) (by intro c; simp)
    cases hst : settings.StreamStats <;> simp [signalHandler, hst, h1, h2]

/-- C10 as stated fails: `/static/readme.txt` lies under `/static/` and is dispatched to
`handleDefault`, not to a static-asset handler; and `/favicon.ico`, which is none of the
paths the claim lists and lies under neither `/emotes/` nor `/static/`, is dispatched to
`wsStaticFiles`, not to `handleDefault`. -/
theorem C10_static_and_favicon_routes :
    hasPrefix "/static/readme.txt" "/static/" = true ∧
    chatMux.matchPath "/static/readme.txt" = some HandlerFunc.handleDefault ∧
    hasPrefix "/favicon.ico" "/static/" = false ∧ hasPrefix "/favicon.ico" "/emotes/" = false ∧
    chatMux.matchPath "/favicon.ico" = some HandlerFunc.wsStaticFiles := by
  decide

/-- C10, amended: the mux dispatches `/ws` to `wsHandler`, `/chat` and `/video` to
`handleIndexTemplate`, `/help` to `handleHelpTemplate`, every path under `/emotes/` to
`wsEmotes`, every path under `/static/js/` or `/static/css/` and the path `/favicon.ico` to
`wsStaticFiles`, every path under `/static/img/` to `wsImages`, the path
`/static/main.wasm` to `wsWasmFile`, and every other path that begins with a slash (other
paths under `/static/` included) to `handleDefault`; a path that does not begin with a slash
matches no pattern. -/
theorem C10_route_table_dispatch (path : String) :
    (path = "/ws" → chatMux.matchPath path = some HandlerFunc.wsHandler) ∧
    (path = "/chat" ∨ path = "/video" →
      chatMux.matchPath path = some HandlerFunc.handleIndexTemplate) ∧
    (path = "/help" → chatMux.matchPath path = some HandlerFunc.handleHelpTemplate) ∧
    (hasPrefix path "/emotes/" = true → chatMux.matchPath path = some HandlerFunc.wsEmotes) ∧
    (hasPrefix path "/static/js/" = true ∨ hasPrefix path "/static/css/" = true ∨
      path = "/favicon.ico" → chatMux.matchPath path = some HandlerFunc.wsStaticFiles) ∧
    (hasPrefix path "/static/img/" = true →
      chatMux.matchPath path = some HandlerFunc.wsImages) ∧
    (path = "/static/main.wasm" → chatMux.matchPath path = some HandlerFunc.wsWasmFile) ∧
    (hasPrefix path "/" = true →
      path ≠ "/ws" → path ≠ "/chat" → path ≠ "/video" → path ≠ "/help" →
      path ≠ "/favicon.ico" → path ≠ "/static/main.wasm" →
      hasPrefix path "/emotes/" = false → hasPrefix path "/static/js/" = false →
      hasPrefix path "/static/css/" = false → hasPrefix path "/static/img/" = false →
      chatMux.matchPath path = some HandlerFunc.handleDefault) ∧
    (hasPrefix path "/" = false → chatMux.matchPath path = none) := by
  refine ⟨?_, ?_, ?_, ?_, ?_, ?_, ?_, ?_, ?_⟩
  · rintro rfl
    decide
  · rintro (rfl | rfl) <;> decide
  · rintro rfl
    decide
  · intro h
    exact matchPath_subtree path ⟨"/emotes/", .wsEmotes⟩ (by simp) h
  · rintro (h | h | rfl)
    · exact matchPath_subtree path ⟨"/static/js/", .wsStaticFiles⟩ (by simp) h
    · exact matchPath_subtree path ⟨"/static/css/", .wsStaticFiles⟩ (by simp) h
    · decide
  · intro h
    exact matchPath_subtree path ⟨"/static/img/", .wsImages⟩ (by simp) h
  · rintro rfl
    decide
  · intro hroot n1 n8 n9 n10 n7 n5 y6 y2 y3 y4
    rw [matchPath_other path n1 n5 n7 n8 n9 n10 y2 y3 y4 y6, hroot]
    rfl
  · intro hroot
    have y2 : hasPrefix path "/static/js/" = false := by
      cases h : hasPrefix path "/static/js/"
      · rfl
      · rw [hasPrefix_trans path "/static/js/" "/" h (by decide)] at hroot
        cases hroot
    have y3 : hasPrefix path "/static/css/" = false := by
      cases h : hasPrefix path "/static/css/"
      · rfl
      · rw [hasPrefix_trans path "/static/css/" "/" h (by decide)] at hroot
        cases hroot
    have y4 : hasPrefix path "/static/img/" = false := by
      cases h : hasPrefix path "/static/img/"
      · rfl
      · rw [hasPrefix_trans path "/static/img/" "/" h (by decide)] at hroot
        cases hroot
    have y6 : hasPrefix path "/emotes/" = false := by
      cases h : hasPrefix path "/emotes/"
      · rfl
      · rw [hasPrefix_trans path "/emotes/" "/" h (by decide)] at hroot
        cases hroot
    have hne : ∀ b : String, hasPrefix b "/" = true → path ≠ b := by
      rintro b hb rfl
      rw [hroot] at hb
      cases hb
    rw [matchPath_other path (hne _ (by decide)) (hne _ (by decide)) (hne _ (by decide))
      (hne _ (by decide)) (hne _ (by decide)) (hne _ (by decide)) y2 y3 y4 y6, hroot]
    rfl

end MovieNight
